import Mathlib

/-!
Verification of the PixelPendant firmware (PixelPendant.ino): a shallow
embedding of the concurrent frame-acquisition and session-arbitration
subsystem.

Modelling conventions:
* Mutable globals of the sketch are gathered into the record `Sys`.
* Hardware and I/O outcomes (mutex acquisition within its timeout, camera
  frame availability, SD open/remove success, timestamps, clock readings)
  are passed in as explicit oracle parameters, so that every theorem
  quantifies over all possible outcomes of those effects.
* Outbound WebSocket broadcasts (`sendToAllClients` / `broadcastTXT`) are
  collected into a `List Msg`; radio-level calls made by the WiFi
  supervision branch of `loop` are collected into a `List NetAct`.
* Frame payloads are byte lists (`List Nat`); the SD card root directory is
  a list of `(path, bytes)` pairs.  The currently open MJPEG video file,
  its thumbnail and its duration sidecar are modelled by dedicated fields
  (`videoFrames`, `thumbnail`, `metaDuration`), mirroring the fact that the
  sketch accesses them only through the dedicated globals `videoFile`,
  `currentThumbPath` and the `meta_*.txt` path.
* Timing (tick counts, delays) has no observable effect on the modelled
  state, so `millis()`-based pacing is not represented except where a
  branch depends on it (stream timeout, slow-frame detection), in which
  case the branch condition is an oracle bit.
-/

namespace PixelPendant

/-- Outbound JSON broadcasts of the sketch, one constructor per distinct
`sendToAllClients` / `broadcastTXT` payload that the modelled code emits. -/
inductive Msg where
  | recordingStarted
  | recordingStopped
  | refreshGallery
  | streamStarted
  | streamStopped
  | streamToggle (started : Bool)
  deriving DecidableEq, Repr

/-- Radio-level operations that the WiFi supervision branch of `loop` can
perform; used to state that no reconnection attempt happens during an
active session. -/
inductive NetAct where
  | wifiDisconnect (radioOff : Bool)
  | wifiBegin
  | connectWiFiCall
  | mdnsBegin
  deriving DecidableEq, Repr

/-- The mutable global state of the sketch (recording, streaming, gallery
and WiFi-supervision globals). -/
structure Sys where
  isRecording : Bool
  frameCount : Nat
  videoStartTime : Nat
  thumbnailSaved : Bool
  currentThumbPath : String
  videoFileOpen : Bool
  videoFrames : List (List Nat)
  thumbnail : Option (List Nat)
  metaDuration : Option Nat
  galleryDirty : Bool
  streamActive : Bool
  captureRequested : Bool
  streamFrameBuffer : List Nat
  lastCapturedImage : List Nat
  sd : List (String × List Nat)
  wifiConnected : Bool
  mdnsStarted : Bool
  consecutiveWiFiFailures : Nat
  deriving DecidableEq, Repr

/-- Global state right after the initializers at the top of the sketch
(`galleryDirty = true`, everything else off/empty). -/
def initSys : Sys :=
  { isRecording := false
  , frameCount := 0
  , videoStartTime := 0
  , thumbnailSaved := false
  , currentThumbPath := ""
  , videoFileOpen := false
  , videoFrames := []
  , thumbnail := none
  , metaDuration := none
  , galleryDirty := true
  , streamActive := false
  , captureRequested := false
  , streamFrameBuffer := []
  , lastCapturedImage := []
  , sd := []
  , wifiConnected := false
  , mdnsStarted := false
  , consecutiveWiFiFailures := 0 }

/-- The sketch's `recordedFPS` global ("Same as streaming FPS"). -/
def recordedFPS : Nat := 15

/-- The sketch's `MAX_WIFI_RETRIES` constant. -/
def maxWifiRetries : Nat := 3

/-- Embedding of `recordFrame(camera_fb_t * fb)`.  `fb` is the frame (none
for a null pointer), `thumbOk` is the outcome of `SD.open(currentThumbPath,
FILE_WRITE)` for the first-frame thumbnail.  The every-20th-frame
`videoFile.flush()` changes none of the modelled state. -/
def recordFrame (s : Sys) (fb : Option (List Nat)) (thumbOk : Bool) : Sys :=
  match fb with
  | none => s
  | some b =>
    if !s.isRecording || !s.videoFileOpen then s
    else
      let s1 :=
        if !s.thumbnailSaved then
          if thumbOk then { s with thumbnail := some b, thumbnailSaved := true }
          else s
        else s
      { s1 with videoFrames := s1.videoFrames ++ [b], frameCount := s1.frameCount + 1 }

/-- Embedding of `startRecording()`.  `sdOpenOk` is the outcome of
`SD.open(path, FILE_WRITE)` for the new MJPEG file, `ts` the value of
`getTimestamp()`, `now` the value of `millis()`.  Note that `videoFile` is
reassigned before the failure check, so a failed open still invalidates the
previously held file handle. -/
def startRecording (s : Sys) (sdOpenOk : Bool) (ts : String) (now : Nat) :
    Sys × List Msg :=
  if s.isRecording then (s, [])
  else
    let s1 := { s with videoFileOpen := sdOpenOk, videoFrames := [] }
    if !sdOpenOk then (s1, [])
    else
      ({ s1 with isRecording := true
               , frameCount := 0
               , videoStartTime := now
               , thumbnailSaved := false
               , currentThumbPath := "/thumb_" ++ ts ++ ".jpg" }
      , [Msg.recordingStarted])

/-- Embedding of `stopRecording()`.  `metaOk` is the outcome of
`SD.open(metaPath, FILE_WRITE)` for the duration sidecar (`meta_*.txt`,
derived from `currentThumbPath`); on success the sidecar's content is the
integer `frameCount / recordedFPS`. -/
def stopRecording (s : Sys) (metaOk : Bool) : Sys × List Msg :=
  if !s.isRecording then (s, [])
  else
    let s1 := { s with isRecording := false, videoFileOpen := false }
    let durationSec := s1.frameCount / recordedFPS
    let s2 := if metaOk then { s1 with metaDuration := some durationSec } else s1
    ({ s2 with galleryDirty := true }
    , [Msg.recordingStopped, Msg.refreshGallery])

/-- SD.exists over the modelled root directory. -/
def sdExists (sd : List (String × List Nat)) (path : String) : Bool :=
  sd.any (fun f => f.1 == path)

/-- SD.remove over the modelled root directory (removal succeeded). -/
def sdRemove (sd : List (String × List Nat)) (path : String) :
    List (String × List Nat) :=
  sd.filter (fun f => !(f.1 == path))

/-- The media-file test used by `handleDeleteAll` and the gallery scan. -/
def isMediaName (n : String) : Bool :=
  n.endsWith ".jpg" || n.endsWith ".mjpeg"

/-- Embedding of `captureStreamFrame()`.  Oracles: `mutexOk` is whether
`xSemaphoreTake(camMutex, 50ms)` succeeded, `frame` the result of
`esp_camera_fb_get()` (none for null), `stillSdOk` the outcome of the
`SD.open` for a deferred still capture, `thumbOk` forwarded to
`recordFrame`, `ts` the value of `getTimestamp()`.  Note that
`streamFrameBuffer` is only ever assigned, never cleared, and that
`captureRequested` is cleared even when the still-image `SD.open` fails. -/
def captureStreamFrame (s : Sys) (mutexOk : Bool) (frame : Option (List Nat))
    (stillSdOk thumbOk : Bool) (ts : String) : Sys × List Msg :=
  if !mutexOk then (s, [])
  else
    match frame with
    | none => (s, [])
    | some b =>
      let s1 := { s with streamFrameBuffer := b }
      let s2 := if s1.isRecording then recordFrame s1 (some b) thumbOk else s1
      if s2.captureRequested then
        if stillSdOk then
          ({ s2 with sd := s2.sd ++ [("/" ++ ts ++ ".jpg", b)]
                   , galleryDirty := true
                   , captureRequested := false }
          , [Msg.refreshGallery])
        else ({ s2 with captureRequested := false }, [])
      else (s2, [])

/-- Embedding of `captureFrame()`.  In the `streamActive` branch the
function only flags the request and returns.  Otherwise `mutexOk` is
whether `xSemaphoreTake(camMutex, 100ms)` succeeded, `frame` the result of
`esp_camera_fb_get()` after the stale-frame discard loop (the discard loop
itself touches only the camera driver and is covered by the interleaving
model below), and `sdOk` the outcome of `SD.open(path, FILE_WRITE)`.  The
trailing `sendToAllClients(refresh_gallery)` runs on every non-stream
execution, even after a mutex timeout or a failed capture. -/
def captureFrame (s : Sys) (mutexOk : Bool) (frame : Option (List Nat))
    (sdOk : Bool) (ts : String) : Sys × List Msg :=
  if s.streamActive then ({ s with captureRequested := true }, [])
  else if !mutexOk then (s, [Msg.refreshGallery])
  else
    match frame with
    | none => (s, [Msg.refreshGallery])
    | some b =>
      if sdOk then
        ({ s with sd := s.sd ++ [("/" ++ ts ++ ".jpg", b)]
                , lastCapturedImage := b
                , galleryDirty := true }
        , [Msg.refreshGallery])
      else (s, [Msg.refreshGallery])

/-- Embedding of the `delete` action of `webSocketEvent` (`SD.exists`, then
`SD.remove`, then broadcast `refresh_gallery` on success).  This path never
touches `galleryDirty`. -/
def wsDelete (s : Sys) (name : String) (removeOk : Bool) : Sys × List Msg :=
  let path := "/" ++ name
  if sdExists s.sd path then
    if removeOk then
      ({ s with sd := sdRemove s.sd path }, [Msg.refreshGallery])
    else (s, [])
  else (s, [])

/-- Embedding of `handleDeleteImage()`.  `nameArg` is `server.arg("name")`
when present and `removeOk` the outcome of `SD.remove`; the second
component is the HTTP status code sent. -/
def handleDeleteImage (s : Sys) (nameArg : Option String) (removeOk : Bool) :
    Sys × Nat :=
  match nameArg with
  | some name =>
    let path := "/" ++ name
    if sdExists s.sd path then
      if removeOk then
        ({ s with sd := sdRemove s.sd path, galleryDirty := true }, 200)
      else (s, 500)
    else (s, 404)
  | none => (s, 400)

/-- Embedding of `handleDeleteAll()`.  `rootOk` is the outcome of
`SD.open(slash-root)`; `removeOk` gives the (ignored) outcome of each
`SD.remove`.  Directory entries are not modelled (the modelled root holds
files only).  Result: new state, HTTP status, broadcasts. -/
def handleDeleteAll (s : Sys) (rootOk : Bool) (removeOk : String → Bool) :
    Sys × (Nat × List Msg) :=
  if !rootOk then (s, (500, []))
  else
    let s1 := { s with sd := s.sd.filter (fun f => !(isMediaName f.1 && removeOk f.1)) }
    ({ s1 with galleryDirty := true }, (200, [Msg.refreshGallery]))

/-- Inbound WebSocket commands dispatched by `webSocketEvent`.  Oracle
outcomes needed by the dispatched operation are carried on the
constructor. -/
inductive WsCmd where
  | streamStart
  | streamStop
  | streamToggleCmd
  | capture (mutexOk : Bool) (frame : Option (List Nat)) (sdOk : Bool) (ts : String)
  | recordStart (sdOpenOk : Bool) (ts : String) (now : Nat)
  | recordStop (metaOk : Bool)
  | deleteFile (name : String) (removeOk : Bool)
  | cameraSetting
  deriving Repr

/-- Embedding of the `WStype_TEXT` branch of `webSocketEvent`.  The
`setting` action only forwards to the live sensor configuration, which is
outside the modelled state. -/
def webSocketEvent (s : Sys) (c : WsCmd) : Sys × List Msg :=
  match c with
  | WsCmd.streamStart => ({ s with streamActive := true }, [])
  | WsCmd.streamStop => ({ s with streamActive := false }, [])
  | WsCmd.streamToggleCmd =>
    let v := !s.streamActive
    ({ s with streamActive := v }, [Msg.streamToggle v])
  | WsCmd.capture m f sd ts => captureFrame s m f sd ts
  | WsCmd.recordStart sd ts now => startRecording s sd ts now
  | WsCmd.recordStop metaOk => stopRecording s metaOk
  | WsCmd.deleteFile name removeOk => wsDelete s name removeOk
  | WsCmd.cameraSetting => (s, [])

/-- Sequential processing of the commands delivered by one
`webSocket.loop()` call inside the stream loop. -/
def runCmds (s : Sys) (cs : List WsCmd) : Sys × List Msg :=
  match cs with
  | [] => (s, [])
  | c :: rest =>
    let r1 := webSocketEvent s c
    let r2 := runCmds r1.1 rest
    (r2.1, r1.2 ++ r2.2)

/-- The oracle inputs of one iteration of the `while` loop of
`handleStream`: connection liveness and the 120 s ceiling at the loop head,
the `captureStreamFrame` oracles, whether the measured capture time exceeds
`frame_time * 2` (`slow`), the WebSocket commands delivered by this
iteration's `webSocket.loop()`, and whether the touch long-hold fires and
toggles `streamActive` this iteration. -/
structure StreamIter where
  clientConn : Bool
  timedOut : Bool
  mutexOk : Bool
  frame : Option (List Nat)
  stillSdOk : Bool
  thumbOk : Bool
  ts : String
  slow : Bool
  cmds : List WsCmd
  touchToggle : Bool
  deriving Repr

/-- Result of running the stream loop against a finite oracle list:
final state, broadcasts, the frame payloads written to the HTTP client, and
whether the loop exited (`done = false` means the oracle list ran out while
the loop was still live). -/
structure StreamResult where
  state : Sys
  msgs : List Msg
  sent : List (List Nat)
  done : Bool
  deriving Repr

/-- Embedding of the `while (client.connected() && streamActive)` loop of
`handleStream`, with `skipCtr` the local `frame_skip_counter`.  A slow
iteration with `frame_skip_counter` still below 3 executes `continue`,
skipping the client write, the command processing and the touch poll for
that iteration. -/
def streamLoop (s : Sys) (skipCtr : Nat) (iters : List StreamIter) : StreamResult :=
  match iters with
  | [] => { state := s, msgs := [], sent := [], done := false }
  | it :: rest =>
    if !(it.clientConn && s.streamActive) then
      { state := s, msgs := [], sent := [], done := true }
    else if it.timedOut then
      { state := s, msgs := [], sent := [], done := true }
    else
      let r1 := captureStreamFrame s it.mutexOk it.frame it.stillSdOk it.thumbOk it.ts
      let s1 := r1.1
      let bufEmpty := s1.streamFrameBuffer.isEmpty
      if !bufEmpty && it.slow && skipCtr + 1 < 3 then
        let r := streamLoop s1 (skipCtr + 1) rest
        { state := r.state, msgs := r1.2 ++ r.msgs, sent := r.sent, done := r.done }
      else
        let skip2 := if !bufEmpty && it.slow then 0 else skipCtr
        let sentNow := if bufEmpty then ([] : List (List Nat)) else [s1.streamFrameBuffer]
        let r2 := runCmds s1 it.cmds
        let s2 := r2.1
        let r3 :=
          if it.touchToggle then
            (({ s2 with streamActive := !s2.streamActive } : Sys)
            , [Msg.streamToggle (!s2.streamActive)])
          else (s2, ([] : List Msg))
        let s3 := r3.1
        let r := streamLoop s3 skip2 rest
        { state := r.state
        , msgs := r1.2 ++ r2.2 ++ r3.2 ++ r.msgs
        , sent := sentNow ++ r.sent
        , done := r.done }

/-- Embedding of `handleStream()`: set `streamActive`, broadcast the
started notification, early-return if the client already disconnected
(clearing the flag without a stopped notification), otherwise run the loop
and, on loop exit, clear the flag and broadcast the stopped
notification. -/
def handleStream (s : Sys) (initClientConn : Bool) (iters : List StreamIter) :
    StreamResult :=
  let s0 := { s with streamActive := true }
  if !initClientConn then
    { state := { s0 with streamActive := false }
    , msgs := [Msg.streamStarted]
    , sent := []
    , done := true }
  else
    let r := streamLoop s0 0 iters
    if r.done then
      { state := { r.state with streamActive := false }
      , msgs := Msg.streamStarted :: (r.msgs ++ [Msg.streamStopped])
      , sent := r.sent
      , done := true }
    else
      { state := r.state
      , msgs := Msg.streamStarted :: r.msgs
      , sent := r.sent
      , done := false }

/-- Embedding of the WiFi supervision branch at the top of `loop()`.
`due` is whether 15 s have elapsed since `lastWiFiCheck`, `linkUp` the
result of `WiFi.status() == WL_CONNECTED`, `mdnsOk` the outcome of
`MDNS.begin`, and `connOk` the outcome of the `connectWiFi()` escalation
(which on success sets `wifiConnected` and on either outcome is followed by
`consecutiveWiFiFailures = 0`). -/
def wifiSupervise (s : Sys) (due linkUp mdnsOk connOk : Bool) :
    Sys × List NetAct :=
  if !due then (s, [])
  else if linkUp then
    let s1 :=
      if !s.wifiConnected then
        { s with wifiConnected := true, consecutiveWiFiFailures := 0 }
      else s
    if !s1.mdnsStarted then
      if mdnsOk then ({ s1 with mdnsStarted := true }, [NetAct.mdnsBegin])
      else (s1, [NetAct.mdnsBegin])
    else (s1, [])
  else
    let s1 := { s with mdnsStarted := false }
    if !s1.streamActive && !s1.isRecording then
      let s2 := { s1 with wifiConnected := false
                        , consecutiveWiFiFailures := s1.consecutiveWiFiFailures + 1 }
      if decide (maxWifiRetries ≤ s2.consecutiveWiFiFailures) then
        ({ s2 with wifiConnected := connOk, consecutiveWiFiFailures := 0 }
        , [NetAct.wifiDisconnect false, NetAct.wifiBegin
          , NetAct.wifiDisconnect true, NetAct.connectWiFiCall])
      else
        (s2, [NetAct.wifiDisconnect false, NetAct.wifiBegin])
    else
      ({ s1 with wifiConnected := false }, [])

/-!
Interleaving model for the camera critical section (claim C1).

Three code paths touch the camera driver: `captureStreamFrame` (called from
the `handleStream` loop on the main context), the body of
`recordingCaptureTask` (the background task on core 1), and the non-stream
branch of `captureFrame`.  Each is an automaton over a program counter;
the shared state is the owner of `camMutex`.  Interleavings are arbitrary:
the model does not assume that `captureStreamFrame` and `captureFrame`
share a thread, which only adds interleavings.

Program counters (camera-driver accesses marked `cam`):
* stream (`captureStreamFrame`): 0 entry / `xSemaphoreTake`; 1 `cam`
  `esp_camera_fb_get`; 2 buffer assign + `recordFrame` + deferred still
  save; 3 `cam` `esp_camera_fb_return`; 4 `xSemaphoreGive`; 6 the
  null-frame branch's `xSemaphoreGive`.
* task (`recordingCaptureTask` body): 0 idle / `xSemaphoreTake`; 1 `cam`
  `esp_camera_fb_get`; 2 `recordFrame`; 3 `cam` `esp_camera_fb_return`;
  4 `xSemaphoreGive` (reached directly from 1 on a null frame).
* photo (`captureFrame`, non-stream branch): 0 entry / `xSemaphoreTake`;
  1 `cam` stale-frame discard loop (`fb_get`/`fb_return` pairs); 2 `cam`
  `esp_camera_fb_get`; 3 SD write; 4 `cam` `esp_camera_fb_return`;
  5 `xSemaphoreGive` (reached directly from 2 on a null frame).
-/

/-- The three camera-using code paths. -/
inductive Proc where
  | stream
  | task
  | photo
  deriving DecidableEq, Repr

/-- A configuration of the interleaving model: one program counter per
code path plus the current holder of `camMutex`. -/
structure Conf where
  pcS : Nat
  pcT : Nat
  pcP : Nat
  owner : Option Proc
  deriving DecidableEq, Repr

/-- Initial configuration: every path at its entry, mutex free. -/
def initConf : Conf :=
  { pcS := 0, pcT := 0, pcP := 0, owner := none }

/-- One interleaved step: some path executes its next instruction.
`xSemaphoreTake` succeeds only when the mutex is free and may time out
instead; `xSemaphoreGive` frees the mutex; camera-driver accesses and
internal work move the program counter without touching the mutex. -/
inductive Step : Conf → Conf → Prop where
  | sTake (c : Conf) (h : c.pcS = 0) (hfree : c.owner = none) :
      Step c { c with pcS := 1, owner := some Proc.stream }
  | sTakeFail (c : Conf) (h : c.pcS = 0) : Step c c
  | sGet (c : Conf) (h : c.pcS = 1) : Step c { c with pcS := 2 }
  | sGetNull (c : Conf) (h : c.pcS = 1) : Step c { c with pcS := 6 }
  | sSide (c : Conf) (h : c.pcS = 2) : Step c { c with pcS := 3 }
  | sRet (c : Conf) (h : c.pcS = 3) : Step c { c with pcS := 4 }
  | sGive (c : Conf) (h : c.pcS = 4) : Step c { c with pcS := 0, owner := none }
  | sGiveNull (c : Conf) (h : c.pcS = 6) : Step c { c with pcS := 0, owner := none }
  | tIdle (c : Conf) (h : c.pcT = 0) : Step c c
  | tTake (c : Conf) (h : c.pcT = 0) (hfree : c.owner = none) :
      Step c { c with pcT := 1, owner := some Proc.task }
  | tTakeFail (c : Conf) (h : c.pcT = 0) : Step c c
  | tGet (c : Conf) (h : c.pcT = 1) : Step c { c with pcT := 2 }
  | tGetNull (c : Conf) (h : c.pcT = 1) : Step c { c with pcT := 4 }
  | tRec (c : Conf) (h : c.pcT = 2) : Step c { c with pcT := 3 }
  | tRet (c : Conf) (h : c.pcT = 3) : Step c { c with pcT := 4 }
  | tGive (c : Conf) (h : c.pcT = 4) : Step c { c with pcT := 0, owner := none }
  | pTake (c : Conf) (h : c.pcP = 0) (hfree : c.owner = none) :
      Step c { c with pcP := 1, owner := some Proc.photo }
  | pTakeFail (c : Conf) (h : c.pcP = 0) : Step c c
  | pStale (c : Conf) (h : c.pcP = 1) : Step c c
  | pStaleDone (c : Conf) (h : c.pcP = 1) : Step c { c with pcP := 2 }
  | pGet (c : Conf) (h : c.pcP = 2) : Step c { c with pcP := 3 }
  | pGetNull (c : Conf) (h : c.pcP = 2) : Step c { c with pcP := 5 }
  | pWrite (c : Conf) (h : c.pcP = 3) : Step c { c with pcP := 4 }
  | pRet (c : Conf) (h : c.pcP = 4) : Step c { c with pcP := 5 }
  | pGive (c : Conf) (h : c.pcP = 5) : Step c { c with pcP := 0, owner := none }

/-- Configurations reachable from `initConf` by interleaved steps. -/
inductive Reach : Conf → Prop where
  | init : Reach initConf
  | next {c c' : Conf} : Reach c → Step c c' → Reach c'

/-- Whether a path is inside the critical section (strictly between its
successful `xSemaphoreTake` and the completion of the matching
`xSemaphoreGive`). -/
def inCS (c : Conf) (p : Proc) : Bool :=
  match p with
  | Proc.stream => c.pcS == 1 || c.pcS == 2 || c.pcS == 3 || c.pcS == 4 || c.pcS == 6
  | Proc.task => c.pcT == 1 || c.pcT == 2 || c.pcT == 3 || c.pcT == 4
  | Proc.photo => c.pcP == 1 || c.pcP == 2 || c.pcP == 3 || c.pcP == 4 || c.pcP == 5

/-- Whether a path's next instruction is a camera-driver access
(`esp_camera_fb_get` / `esp_camera_fb_return`). -/
def camAt (c : Conf) (p : Proc) : Bool :=
  match p with
  | Proc.stream => c.pcS == 1 || c.pcS == 3
  | Proc.task => c.pcT == 1 || c.pcT == 3
  | Proc.photo => c.pcP == 1 || c.pcP == 2 || c.pcP == 4

/-- The lock-ownership invariant of the interleaving model: a path inside
the critical section owns the mutex. -/
def LockInv (c : Conf) : Prop :=
  (inCS c Proc.stream = true → c.owner = some Proc.stream) ∧
  (inCS c Proc.task = true → c.owner = some Proc.task) ∧
  (inCS c Proc.photo = true → c.owner = some Proc.photo)

/-!
Frame-skip bookkeeping of the stream loop (claim C9).
-/

/-- The sent-frame schedule actually implemented by the stream loop,
extracted from `handleStream`: a slow iteration increments
`frame_skip_counter` and is skipped while the counter stays below 3,
the counter resets to 0 exactly when it reaches 3 (that frame is sent),
and a fast iteration sends its frame leaving the counter unchanged. -/
def codeSkipRun : Nat → List (Bool × List Nat) → List (List Nat)
  | _, [] => []
  | ctr, (slow, b) :: rest =>
    if slow then
      if ctr + 1 < 3 then codeSkipRun (ctr + 1) rest
      else b :: codeSkipRun 0 rest
    else b :: codeSkipRun ctr rest

/-- Modelled from the claim's words (claim C9): the same slow-frame
bookkeeping except that "a fast iteration in between restarts the
'consecutive' count", i.e. a fast iteration resets the counter to 0. -/
def claimSkipRun : Nat → List (Bool × List Nat) → List (List Nat)
  | _, [] => []
  | ctr, (slow, b) :: rest =>
    if slow then
      if ctr + 1 < 3 then claimSkipRun (ctr + 1) rest
      else b :: claimSkipRun 0 rest
    else b :: claimSkipRun 0 rest

/-- A stream-loop iteration with a live client, no timeout, a successful
acquisition of frame `b`, no inbound commands and no touch toggle; used to
isolate the frame-skip bookkeeping. -/
def plainIter (slow : Bool) (b : List Nat) : StreamIter :=
  { clientConn := true
  , timedOut := false
  , mutexOk := true
  , frame := some b
  , stillSdOk := true
  , thumbOk := true
  , ts := "t"
  , slow := slow
  , cmds := []
  , touchToggle := false }

/-- A list of plain iterations from a slow-flag/frame-payload pattern. -/
def plainRun (pat : List (Bool × List Nat)) : List StreamIter :=
  pat.map (fun x => plainIter x.1 x.2)

/-- A stream-loop iteration with a live client and no timeout whose
`xSemaphoreTake` times out (claim C6). -/
def timeoutIter : StreamIter :=
  { clientConn := true
  , timedOut := false
  , mutexOk := false
  , frame := none
  , stillSdOk := true
  , thumbOk := true
  , ts := "t"
  , slow := false
  , cmds := []
  , touchToggle := false }

/-! Helper lemmas about `recordFrame`'s footprint. -/

theorem recordFrame_captureRequested (s : Sys) (fb : Option (List Nat)) (t : Bool) :
    (recordFrame s fb t).captureRequested = s.captureRequested := by
  cases fb <;> simp only [recordFrame]
  all_goals first
    | rfl
    | (split <;> first | rfl | (split <;> first | rfl | (split <;> rfl)))

theorem recordFrame_sd (s : Sys) (fb : Option (List Nat)) (t : Bool) :
    (recordFrame s fb t).sd = s.sd := by
  cases fb <;> simp only [recordFrame]
  all_goals first
    | rfl
    | (split <;> first | rfl | (split <;> first | rfl | (split <;> rfl)))

theorem recordFrame_streamActive (s : Sys) (fb : Option (List Nat)) (t : Bool) :
    (recordFrame s fb t).streamActive = s.streamActive := by
  cases fb <;> simp only [recordFrame]
  all_goals first
    | rfl
    | (split <;> first | rfl | (split <;> first | rfl | (split <;> rfl)))

theorem recordFrame_galleryDirty (s : Sys) (fb : Option (List Nat)) (t : Bool) :
    (recordFrame s fb t).galleryDirty = s.galleryDirty := by
  cases fb <;> simp only [recordFrame]
  all_goals first
    | rfl
    | (split <;> first | rfl | (split <;> first | rfl | (split <;> rfl)))

/-- C10: a `recordFrame` call with recording inactive, a null frame
pointer, or no open video file changes nothing: no bytes reach the video
file or the thumbnail, `frameCount` is unchanged and the thumbnail-saved
flag is unchanged (the guard at the top of `recordFrame` returns the state
untouched). -/
theorem recordFrame_guard_noop (s : Sys) (fb : Option (List Nat)) (t : Bool)
    (h : s.isRecording = false ∨ fb = none ∨ s.videoFileOpen = false) :
    recordFrame s fb t = s := by
  rcases h with h | h | h
  · cases fb <;> simp [recordFrame, h]
  · simp [h, recordFrame]
  · cases fb <;> simp [recordFrame, h]

/-- Witness for `recordFrame_guard_noop` at a concrete inactive state. -/
theorem recordFrame_guard_noop_witness :
    recordFrame initSys (some [1, 2]) true = initSys :=
  recordFrame_guard_noop initSys (some [1, 2]) true (Or.inl rfl)

/-- C3: stopping an active recording persists, to the metadata sidecar,
exactly `frameCount / recordedFPS` in truncating (floor) division, with
`recordedFPS = 15`; the hypothesis `metaOk` is that the sidecar file opened
(the claim speaks of the duration that is persisted). -/
theorem stopRecording_duration (s : Sys) (hrec : s.isRecording = true) :
    (stopRecording s true).1.metaDuration = some (s.frameCount / recordedFPS) ∧
    recordedFPS = 15 := by
  refine ⟨?_, rfl⟩
  simp [stopRecording, hrec]

/-- Witness for `stopRecording_duration`: 47 frames at 15 FPS persist a
duration of 3 seconds. -/
theorem stopRecording_duration_witness :
    (stopRecording
        { initSys with isRecording := true, videoFileOpen := true, frameCount := 47 }
        true).1.metaDuration = some 3 ∧ recordedFPS = 15 := by
  have h := stopRecording_duration
    { initSys with isRecording := true, videoFileOpen := true, frameCount := 47 } rfl
  simpa using h

/-- C7: `startRecording` while a recording is already active returns with
no state change and no notification, and `stopRecording` while no recording
is active likewise returns with no state change and no notification. -/
theorem start_stop_boundary_noop (s1 s2 : Sys) (sdOpenOk : Bool) (ts : String)
    (now : Nat) (metaOk : Bool)
    (h1 : s1.isRecording = true) (h2 : s2.isRecording = false) :
    startRecording s1 sdOpenOk ts now = (s1, []) ∧
    stopRecording s2 metaOk = (s2, []) := by
  constructor
  · simp [startRecording, h1]
  · simp [stopRecording, h2]

/-- Witness for `start_stop_boundary_noop` at concrete states. -/
theorem start_stop_boundary_noop_witness :
    startRecording { initSys with isRecording := true } true "t" 5 =
      ({ initSys with isRecording := true }, []) ∧
    stopRecording initSys true = (initSys, []) :=
  start_stop_boundary_noop { initSys with isRecording := true } initSys true "t" 5 true
    rfl rfl

/-- C8: when the supervision interval is due and the WiFi link is observed
down while the streaming session or the recording session is active, the
supervision branch performs no radio operation at all (no
`WiFi.disconnect`, no `WiFi.begin`, no `connectWiFi`): it only marks the
link down (`wifiConnected := false`, and resets the mDNS flag on the way).
Since this holds for every such iteration, no reconnect occurs for as long
as a session stays active. -/
theorem supervisor_no_reconnect_during_session (s : Sys) (mdnsOk connOk : Bool)
    (hactive : s.streamActive = true ∨ s.isRecording = true) :
    wifiSupervise s true false mdnsOk connOk
      = ({ s with mdnsStarted := false, wifiConnected := false }, []) := by
  rcases hactive with h | h <;> simp [wifiSupervise, h]

/-- Witness for `supervisor_no_reconnect_during_session` with an active
stream. -/
theorem supervisor_no_reconnect_during_session_witness :
    wifiSupervise { initSys with streamActive := true } true false true true
      = ({ initSys with streamActive := true, mdnsStarted := false
                      , wifiConnected := false }, []) :=
  supervisor_no_reconnect_during_session
    { initSys with streamActive := true } true true (Or.inl rfl)

/-- C2: while the stream is active, `captureFrame` performs no camera
acquisition and no SD write — it returns the state with only
`captureRequested` set (for every outcome of the mutex/camera/SD oracles,
showing it never consults them) — and the stream loop's next successful
frame acquisition inside `captureStreamFrame` (here with the still-image
`SD.open` succeeding) saves the pending still to the SD root, emits the
gallery refresh, and afterwards clears `captureRequested`. -/
theorem capture_deferred_to_stream (s s2 : Sys) (m : Bool)
    (fr : Option (List Nat)) (sdOk : Bool) (ts ts2 : String) (b : List Nat)
    (thumbOk : Bool)
    (hstream : s.streamActive = true) (hreq : s2.captureRequested = true) :
    captureFrame s m fr sdOk ts = ({ s with captureRequested := true }, []) ∧
    (captureStreamFrame s2 true (some b) true thumbOk ts2).1.captureRequested
      = false ∧
    (captureStreamFrame s2 true (some b) true thumbOk ts2).1.sd
      = s2.sd ++ [("/" ++ ts2 ++ ".jpg", b)] ∧
    (captureStreamFrame s2 true (some b) true thumbOk ts2).2
      = [Msg.refreshGallery] := by
  refine ⟨by simp [captureFrame, hstream], ?_, ?_, ?_⟩ <;>
    simp [captureStreamFrame, recordFrame_captureRequested, recordFrame_sd] <;>
    split <;>
    simp [recordFrame_captureRequested, recordFrame_sd, hreq]

/-- Witness for `capture_deferred_to_stream` at concrete states. -/
theorem capture_deferred_to_stream_witness :
    captureFrame { initSys with streamActive := true } true (some [9]) true "t"
      = ({ initSys with streamActive := true, captureRequested := true }, []) ∧
    (captureStreamFrame { initSys with captureRequested := true }
        true (some [5]) true true "u").1.captureRequested = false ∧
    (captureStreamFrame { initSys with captureRequested := true }
        true (some [5]) true true "u").1.sd = [] ++ [("/" ++ "u" ++ ".jpg", [5])] ∧
    (captureStreamFrame { initSys with captureRequested := true }
        true (some [5]) true true "u").2 = [Msg.refreshGallery] :=
  capture_deferred_to_stream { initSys with streamActive := true }
    { initSys with captureRequested := true } true (some [9]) true "t" "u" [5] true
    rfl rfl

/-- C4 counterexample: the WebSocket `delete` action never touches
`galleryDirty`.  Starting from a clean cache holding one image, a
successful WebSocket deletion removes the file from the SD root yet leaves
`galleryDirty = false`, contradicting the claim that every single-file
delete sets the dirty flag to true unconditionally. -/
theorem wsDelete_never_sets_dirty :
    (wsDelete { initSys with galleryDirty := false, sd := [("/a.jpg", [1])] }
        "a.jpg" true).1.sd = [] ∧
    (wsDelete { initSys with galleryDirty := false, sd := [("/a.jpg", [1])] }
        "a.jpg" true).1.galleryDirty = false := by
  constructor <;> rfl

/-- C4 amended: `stopRecording` (on an active recording) and
`handleDeleteAll` (whenever the root directory opens) set the dirty flag
unconditionally; `handleDeleteImage` sets it exactly when the named file
exists and removal succeeds; the WebSocket `delete` action never sets it;
and `captureFrame` outside a stream sets it exactly when the mutex, the
camera frame and the SD open all succeed (during a stream the capture is
deferred and `captureFrame` itself never sets the flag). -/
theorem gallery_dirty_discipline (s : Sys) (metaOk removeOk m sdOk : Bool)
    (name ts : String) (fr : Option (List Nat)) (rm : String → Bool) :
    (s.isRecording = true → (stopRecording s metaOk).1.galleryDirty = true) ∧
    (handleDeleteAll s true rm).1.galleryDirty = true ∧
    (handleDeleteImage s (some name) removeOk).1.galleryDirty
      = (s.galleryDirty || (sdExists s.sd ("/" ++ name) && removeOk)) ∧
    (wsDelete s name removeOk).1.galleryDirty = s.galleryDirty ∧
    (s.streamActive = false →
      (captureFrame s m fr sdOk ts).1.galleryDirty
        = (s.galleryDirty || (m && fr.isSome && sdOk))) := by
  refine ⟨?_, ?_, ?_, ?_, ?_⟩
  · intro h
    simp [stopRecording, h]
  · simp [handleDeleteAll]
  · simp only [handleDeleteImage]
    split
    · split <;> simp_all
    · simp_all
  · simp only [wsDelete]
    split
    · split <;> rfl
    · rfl
  · intro h
    cases fr <;> cases m <;> cases sdOk <;> simp [captureFrame, h]

/-- Witness for `gallery_dirty_discipline` at a concrete state with an
active recording, a clean cache and one stored image. -/
theorem gallery_dirty_discipline_witness :
    ((stopRecording
        { initSys with isRecording := true, galleryDirty := false
                     , sd := [("/a.jpg", [1])] } true).1.galleryDirty = true) ∧
    ((handleDeleteAll
        { initSys with isRecording := true, galleryDirty := false
                     , sd := [("/a.jpg", [1])] } true (fun _ => true)).1.galleryDirty
      = true) ∧
    ((handleDeleteImage
        { initSys with isRecording := true, galleryDirty := false
                     , sd := [("/a.jpg", [1])] } (some "a.jpg") true).1.galleryDirty
      = ({ initSys with isRecording := true, galleryDirty := false
                      , sd := [("/a.jpg", [1])] } : Sys).galleryDirty
        || (sdExists [("/a.jpg", [1])] ("/" ++ "a.jpg") && true)) ∧
    ((wsDelete
        { initSys with isRecording := true, galleryDirty := false
                     , sd := [("/a.jpg", [1])] } "a.jpg" true).1.galleryDirty
      = false) ∧
    ((captureFrame
        { initSys with isRecording := true, galleryDirty := false
                     , sd := [("/a.jpg", [1])] } true (some [2]) true "t").1.galleryDirty
      = (false || (true && (some [2] : Option (List Nat)).isSome && true))) := by
  have h := gallery_dirty_discipline
    { initSys with isRecording := true, galleryDirty := false, sd := [("/a.jpg", [1])] }
    true true true true "a.jpg" "t" (some [2]) (fun _ => true)
  exact ⟨h.1 rfl, h.2.1, h.2.2.1, h.2.2.2.1, h.2.2.2.2 rfl⟩

/-- C6 amended: when `xSemaphoreTake` times out, `captureStreamFrame`
returns immediately with the state completely unchanged and no
notification — in particular no new frame bytes are produced — and the
stream-loop caller then observes an empty buffer for that cycle exactly
when no earlier frame is still sitting in `streamFrameBuffer`; a frame left
over from a previous cycle is re-sent, because the buffer is never
cleared. -/
theorem captureStream_timeout_behavior (s : Sys) (fr : Option (List Nat))
    (stillSdOk thumbOk : Bool) (ts : String) (ctr : Nat)
    (hs : s.streamActive = true) :
    captureStreamFrame s false fr stillSdOk thumbOk ts = (s, []) ∧
    (streamLoop s ctr [timeoutIter]).sent
      = (if s.streamFrameBuffer.isEmpty then [] else [s.streamFrameBuffer]) := by
  constructor
  · simp [captureStreamFrame]
  · simp [streamLoop, timeoutIter, hs, captureStreamFrame, runCmds]

/-- Witness for `captureStream_timeout_behavior` at a concrete streaming
state with an empty buffer. -/
theorem captureStream_timeout_behavior_witness :
    captureStreamFrame { initSys with streamActive := true } false none true true "t"
      = ({ initSys with streamActive := true }, []) ∧
    (streamLoop { initSys with streamActive := true } 0 [timeoutIter]).sent
      = (if ({ initSys with streamActive := true } : Sys).streamFrameBuffer.isEmpty
          then [] else [({ initSys with streamActive := true } : Sys).streamFrameBuffer]) :=
  captureStream_timeout_behavior { initSys with streamActive := true } none true true
    "t" 0 rfl

/-- C6 counterexample: a successful acquisition of frame `[7]` followed by
a lock-timeout cycle.  On the timed-out cycle the caller does not observe
an empty result: the previous frame is still in `streamFrameBuffer` and its
bytes are written to the client a second time, contradicting the claim that
on lock-timeout the caller observes an empty result rather than any frame
bytes. -/
theorem stale_frame_resent_on_timeout :
    (streamLoop { initSys with streamActive := true } 0
        [plainIter false [7], timeoutIter]).sent = [[7], [7]] := by
  rfl

/-- A stream-loop iteration whose client-liveness check fails (used to
exercise the client-disconnect exit of the loop). -/
def disconnectIter : StreamIter :=
  { timeoutIter with clientConn := false }

/-- C5 counterexample: the immediate-disconnect early return of
`handleStream`.  The handler terminates (`done`), `streamActive` ends
false, but no stream-stopped notification is emitted (only the started
one), contradicting the claim that every termination path emits the
stopped notification. -/
theorem handleStream_early_return_no_stop_notice :
    (handleStream initSys false []).done = true ∧
    (handleStream initSys false []).state.streamActive = false ∧
    (handleStream initSys false []).msgs = [Msg.streamStarted] :=
  ⟨rfl, rfl, rfl⟩

/-- C5 amended: whenever `handleStream` terminates it leaves `streamActive`
false; every exit of its `while` loop (client disconnect, external clearing
of the flag, or the 120 s ceiling — the handler is entered with the client
connected in those cases) additionally emits the stream-stopped
notification; only the immediate-disconnect early return clears the flag
without emitting it. -/
theorem handleStream_teardown (s : Sys) (conn : Bool) (iters : List StreamIter)
    (hdone : (handleStream s conn iters).done = true) :
    (handleStream s conn iters).state.streamActive = false ∧
    (conn = true → Msg.streamStopped ∈ (handleStream s conn iters).msgs) := by
  cases conn with
  | false => simp [handleStream]
  | true =>
    by_cases hr : (streamLoop { s with streamActive := true } 0 iters).done = true
    · constructor
      · simp [handleStream, hr]
      · intro hc
        simp [handleStream, hr]
    · exfalso
      simp [handleStream, hr] at hdone

/-- Witness for `handleStream_teardown`: a session whose loop exits on
client disconnect at its first iteration. -/
theorem handleStream_teardown_witness :
    (handleStream initSys true [disconnectIter]).state.streamActive = false ∧
    Msg.streamStopped ∈ (handleStream initSys true [disconnectIter]).msgs :=
  ⟨(handleStream_teardown initSys true [disconnectIter] rfl).1
  , (handleStream_teardown initSys true [disconnectIter] rfl).2 rfl⟩

/-- Behaviour of `captureStreamFrame` under the conditions of a plain
stream-loop iteration (no recording, no pending still request): it just
latches the new frame into `streamFrameBuffer`. -/
theorem captureStreamFrame_plain (s : Sys) (b : List Nat)
    (hrec : s.isRecording = false) (hreq : s.captureRequested = false) :
    captureStreamFrame s true (some b) true true "t"
      = ({ s with streamFrameBuffer := b }, []) := by
  simp [captureStreamFrame, hrec, hreq]

/-- C9 amended: over any pattern of slow/fast iterations (with live
client, frames available and no concurrent commands), the frames the
stream loop writes to the client are exactly `codeSkipRun`: a slow
iteration increments the counter and is skipped while the counter is below
3; when the counter reaches 3 it is reset to 0 and that frame is delivered,
the session continuing; a fast iteration delivers its frame leaving the
counter unchanged — it does not restart the consecutive count.  In
particular three consecutive slow frames from a reset counter deliver
exactly the third. -/
theorem stream_skip_policy (s : Sys) (ctr : Nat) (pat : List (Bool × List Nat))
    (hs : s.streamActive = true) (hrec : s.isRecording = false)
    (hreq : s.captureRequested = false) (hne : ∀ x ∈ pat, x.2 ≠ []) :
    (streamLoop s ctr (plainRun pat)).sent = codeSkipRun ctr pat ∧
    (∀ b1 b2 b3 : List Nat, ∀ rest : List (Bool × List Nat),
      codeSkipRun 0 ((true, b1) :: (true, b2) :: (true, b3) :: rest)
        = b3 :: codeSkipRun 0 rest) := by
  refine ⟨?_, by intro b1 b2 b3 rest; simp [codeSkipRun]⟩
  induction pat generalizing s ctr with
  | nil => simp [streamLoop, plainRun, codeSkipRun]
  | cons hd tl ih =>
    obtain ⟨slow, b⟩ := hd
    have hb : b ≠ [] := hne (slow, b) (by simp)
    obtain ⟨x, xs, rfl⟩ : ∃ x xs, b = x :: xs := by
      cases b with
      | nil => exact absurd rfl hb
      | cons x xs => exact ⟨x, xs, rfl⟩
    have hcap := captureStreamFrame_plain s (x :: xs) hrec hreq
    have htl : ∀ y ∈ tl, y.2 ≠ [] := fun y hy => hne y (by simp [hy])
    have ih1 := fun ctr' => ih { s with streamFrameBuffer := x :: xs } ctr' hs hrec hreq htl
    cases slow with
    | false =>
      simp [streamLoop, plainRun, plainIter, hs, hcap, runCmds, codeSkipRun]
      simpa [hs, plainRun] using ih1 ctr
    | true =>
      by_cases hctr : ctr + 1 < 3
      · simp [streamLoop, plainRun, plainIter, hs, hcap, runCmds, codeSkipRun, hctr]
        simpa [hs, plainRun] using ih1 (ctr + 1)
      · simp [streamLoop, plainRun, plainIter, hs, hcap, runCmds, codeSkipRun, hctr]
        simpa [hs, plainRun] using ih1 0

/-- Witness for `stream_skip_policy`: a single fast iteration delivers its
frame, and three consecutive slow frames deliver exactly the third. -/
theorem stream_skip_policy_witness :
    (streamLoop { initSys with streamActive := true } 0 (plainRun [(false, [9])])).sent
      = codeSkipRun 0 [(false, [9])] ∧
    codeSkipRun 0 [(true, [1]), (true, [2]), (true, [3])]
      = [3] :: codeSkipRun 0 [] := by
  have h := stream_skip_policy { initSys with streamActive := true } 0 [(false, [9])]
    rfl rfl rfl (by intro x hx; simp at hx; simp [hx])
  exact ⟨h.1, h.2 [1] [2] [3] []⟩

/-- C9 counterexample: the pattern slow, slow, fast, slow.  The code
delivers the third (fast) and the fourth (slow) frames, because the fast
iteration leaves `frame_skip_counter` at 2 and the next slow frame pushes
it to 3; under the claim's reading — a fast iteration restarts the
consecutive count — only the third frame would be delivered
(`claimSkipRun`), so the claim's "consecutive" reading is false of the
code. -/
theorem fast_iteration_does_not_reset_counter :
    codeSkipRun 0 [(true, [1]), (true, [2]), (false, [3]), (true, [4])]
      = [[3], [4]] ∧
    claimSkipRun 0 [(true, [1]), (true, [2]), (false, [3]), (true, [4])]
      = [[3]] ∧
    (streamLoop { initSys with streamActive := true } 0
        (plainRun [(true, [1]), (true, [2]), (false, [3]), (true, [4])])).sent
      = [[3], [4]] :=
  ⟨rfl, rfl, rfl⟩

/-- The lock-ownership invariant is preserved by every interleaved step. -/
theorem lockInv_step {c c' : Conf} (hinv : LockInv c) (hs : Step c c') :
    LockInv c' := by
  obtain ⟨h1, h2, h3⟩ := hinv
  cases hs <;> simp_all [LockInv, inCS]

/-- The lock-ownership invariant holds in every reachable configuration. -/
theorem lockInv_reach {c : Conf} (h : Reach c) : LockInv c := by
  induction h with
  | init => refine ⟨?_, ?_, ?_⟩ <;> simp [inCS, initConf]
  | next _ hs ih => exact lockInv_step ih hs

/-- A camera-driver access point lies inside the critical section. -/
theorem camAt_inCS {c : Conf} {p : Proc} (h : camAt c p = true) :
    inCS c p = true := by
  cases p <;> simp_all [camAt, inCS] <;> omega

/-- C1: in every reachable interleaving of the streaming acquisition
(`captureStreamFrame`), the recording task (`recordingCaptureTask`) and the
standalone capture (`captureFrame`), at most one of the three paths is
inside the camera critical section at any instant, and whenever a path is
about to access `esp_camera_fb_get` / `esp_camera_fb_return` it is the
current owner of `camMutex` — i.e. every camera access happens between its
successful `xSemaphoreTake` and the matching `xSemaphoreGive`. -/
theorem camera_mutual_exclusion (c : Conf) (hr : Reach c) :
    (∀ p q : Proc, inCS c p = true → inCS c q = true → p = q) ∧
    (∀ p : Proc, camAt c p = true → c.owner = some p) := by
  obtain ⟨h1, h2, h3⟩ := lockInv_reach hr
  constructor
  · intro p q hp hq
    cases p <;> cases q <;> simp_all
  · intro p hp
    cases p with
    | stream => exact h1 (camAt_inCS hp)
    | task => exact h2 (camAt_inCS hp)
    | photo => exact h3 (camAt_inCS hp)

/-- Witness for `camera_mutual_exclusion`: the configuration reached after
the streaming path successfully takes the mutex. -/
theorem camera_mutual_exclusion_witness :
    (∀ p q : Proc,
        inCS { pcS := 1, pcT := 0, pcP := 0, owner := some Proc.stream } p = true →
        inCS { pcS := 1, pcT := 0, pcP := 0, owner := some Proc.stream } q = true →
        p = q) ∧
    (∀ p : Proc,
        camAt { pcS := 1, pcT := 0, pcP := 0, owner := some Proc.stream } p = true →
        Conf.owner { pcS := 1, pcT := 0, pcP := 0, owner := some Proc.stream }
          = some p) :=
  camera_mutual_exclusion { pcS := 1, pcT := 0, pcP := 0, owner := some Proc.stream }
    (Reach.next Reach.init (Step.sTake initConf rfl rfl))

end PixelPendant
